import Mathlib

/-!
René AI Sommelier: the serverless endpoint `api/consiglio.js`.

A shallow embedding of the request handler, the catalog loader, the prompt
builder and the retrying API client of `api/consiglio.js`, followed by the
properties proved about them.

Modelling conventions.

* A JavaScript `Error` is a record of its `name` and `message`, the only two
  properties the program reads.  A thrown value is `Option JsError`: `none` is
  the value `undefined` (what `throw lastError` raises when no attempt ran).
* The outside world is the record `Env`: the two environment variables, the
  file system seen through the four candidate catalog paths, `JSON.parse` on
  the catalog text, the clock, and the upstream API as the sequence of
  outcomes of the successive `fetch` calls.
* Every run returns, next to its result, the ordered list of `Event`s it
  performed (file reads, backoff waits, upstream calls).
* Strings are sequences of Unicode characters; `String.prototype.includes` is
  the sublist test `includes`.
* Dishes and wines are typed records (`Piatto`, `Vino`) whose fields are
  strings and string lists, as in the catalog file.
-/

namespace Sommelier

/-! ## Configuration -/

def GROQ_API_URL : String := "https://api.groq.com/openai/v1/chat/completions"
def MODEL : String := "llama-3.3-70b-versatile"
def MAX_RETRIES : Nat := 2
def TIMEOUT_MS : Nat := 25000

/-! ## Strings -/

/-- Sublist test on characters: `needle` occurs contiguously in the text. -/
def includesChars (needle : List Char) : List Char → Bool
  | [] => needle.isEmpty
  | c :: cs => needle.isPrefixOf (c :: cs) || includesChars needle cs

/-- JavaScript `s.includes(needle)`. -/
def includes (s needle : String) : Bool := includesChars needle.data s.data

/-- Code points removed by JavaScript `trim` (WhiteSpace and LineTerminator). -/
def isJsWhitespace (c : Char) : Bool :=
  let n := c.toNat
  n == 0x09 || n == 0x0A || n == 0x0B || n == 0x0C || n == 0x0D || n == 0x20 ||
  n == 0xA0 || n == 0x1680 || (0x2000 ≤ n && n ≤ 0x200A) || n == 0x2028 ||
  n == 0x2029 || n == 0x202F || n == 0x205F || n == 0x3000 || n == 0xFEFF

/-- JavaScript `s.trim().length === 0`. -/
def trimIsEmpty (s : String) : Bool := s.data.all isJsWhitespace

/-! ## Data model -/

/-- A JavaScript error object: its `name` and its `message`. -/
structure JsError where
  name : String
  message : String
deriving DecidableEq, Repr

/-- JavaScript `new Error(message)`. -/
def newError (message : String) : JsError := ⟨"Error", message⟩

/-- A dish, as carried by the request and rendered by `buildPrompt`. -/
structure Piatto where
  nome : String
  categoria : String
  intensita : String
  descrizione : String
  note_aromatiche : List String
deriving DecidableEq, Repr

/-- A wine of the catalog, as rendered by `buildPrompt`. -/
structure Vino where
  nome : String
  tipo : String
  regione : String
  vitigno : String
  note_aromatiche : List String
  corpo : String
  prezzo : String
  abbinamenti_ideali : List String
deriving DecidableEq, Repr

/-- The parsed catalog object: its `piatti` and `vini` properties, each
possibly missing. -/
structure Database where
  piatti : Option (List Piatto)
  vini : Option (List Vino)
deriving DecidableEq, Repr

/-- The value of the `piatti` property of the request body. -/
inductive PiattiValue where
  /-- The property is absent (`undefined`). -/
  | missing
  /-- Any value that is not an array (`null`, a number, a string, an object). -/
  | nonArray
  /-- An array of dishes. -/
  | array (items : List Piatto)
deriving DecidableEq, Repr

/-- The value of `req.body`. -/
inductive Body where
  /-- No body was supplied: `req.body` is `undefined`. -/
  | undefined
  /-- The body is `null`. -/
  | null
  /-- Any other value, seen through its `piatti` property. -/
  | value (piatti : PiattiValue)
deriving DecidableEq, Repr

structure Request where
  method : String
  body : Body
deriving DecidableEq, Repr

/-- The four candidate locations of the catalog file, in the order tried. -/
inductive DbPath where
  /-- The path `path.join(process.cwd(), 'database.json')`. -/
  | cwdDatabase
  /-- The path `path.join(process.cwd(), 'public', 'database.json')`. -/
  | cwdPublicDatabase
  /-- The path `./database.json`. -/
  | dotDatabase
  /-- The path `../database.json`. -/
  | dotDotDatabase
deriving DecidableEq, Repr

/-- The prompt sent upstream. -/
structure Prompt where
  systemMessage : String
  userMessage : String
deriving DecidableEq, Repr

/-- What `response.json()` yields on an upstream response. -/
inductive ResponseJson where
  /-- The promise rejects: the body is not JSON. -/
  | unparsable (error : JsError)
  /-- The body parses to JSON `null`: reading a property of it raises a
  `TypeError`. -/
  | null
  /-- Any other JSON value, seen through `error?.message` and through
  `choices[0].message` (both absent when the value is not an object):
  `message = none` when `choices`, `choices[0]` or `choices[0].message` is
  missing, `some none` when the message has no `content`, `some (some s)` when
  its content is the string `s`. -/
  | object (errorMessage : Option String) (message : Option (Option String))
deriving DecidableEq, Repr

/-- The outcome of one `fetch` to the upstream API. -/
inductive FetchResult where
  /-- The promise rejects (an `AbortError` when the timeout fires, a network
  failure otherwise). -/
  | rejected (error : JsError)
  /-- An HTTP response arrived. -/
  | response (status : Nat) (json : ResponseJson)
deriving DecidableEq, Repr

/-- An observable action of a run. -/
inductive Event where
  /-- One `fs.readFile` on a candidate path. -/
  | fileRead (path : DbPath)
  /-- One backoff `setTimeout` with the given delay in milliseconds. -/
  | wait (ms : Nat)
  /-- One invocation of `callGroqAPI`. -/
  | apiCall (apiKey : String) (prompt : Prompt)
deriving DecidableEq, Repr

/-- The environment of one invocation of the handler. -/
structure Env where
  /-- The variable `process.env.GROQ_API_KEY`. -/
  apiKey : Option String
  /-- The variable `process.env.NODE_ENV`. -/
  nodeEnv : Option String
  /-- The call `fs.readFile(path, 'utf-8')`: `none` when it rejects. -/
  readFile : DbPath → Option String
  /-- The call `JSON.parse` on the catalog text: the error it throws, or the
  parsed value, `none` when that value is falsy (`null`). -/
  jsonParse : String → Except JsError (Option Database)
  /-- Outcome of the `n`-th `fetch` of this invocation (counted from 0). -/
  upstream : Nat → FetchResult
  /-- The string `new Date().toISOString()`. -/
  now : String

/-- The JSON body of a response. -/
inductive ResBody where
  /-- No body: `res.status(..).end()`. -/
  | ended
  /-- An error document with its `error` message and its `details`, which is
  `none` when the key is absent or `undefined`. -/
  | error (error : String) (details : Option String)
  /-- The success document: `consiglio`, `piatti` and `timestamp`. -/
  | recommendation (consiglio : String) (piatti : List String) (timestamp : String)
deriving DecidableEq, Repr

structure Response where
  status : Nat
  body : ResBody
  headers : List (String × String)
deriving DecidableEq, Repr

/-- The result of a run of `handler`: the response sent (`none` when the
handler's promise rejects without responding) and the events performed. -/
structure HandlerResult where
  response : Option Response
  events : List Event
deriving DecidableEq, Repr

/-- Number of catalog file reads in a trace. -/
def fileReads (events : List Event) : Nat :=
  events.countP fun e => match e with
    | .fileRead _ => true
    | _ => false

/-- Number of invocations of `callGroqAPI` in a trace. -/
def apiCalls (events : List Event) : Nat :=
  events.countP fun e => match e with
    | .apiCall _ _ => true
    | _ => false

/-- The backoff delays of a trace, in order. -/
def waits (events : List Event) : List Nat :=
  events.filterMap fun e => match e with
    | .wait ms => some ms
    | _ => none

/-! ## `loadDatabase` -/

def possiblePaths : List DbPath :=
  [.cwdDatabase, .cwdPublicDatabase, .dotDatabase, .dotDotDatabase]

/-- The `for` loop of `loadDatabase`: read the candidates in order and stop
at the first read that succeeds. -/
def readFirst (readFile : DbPath → Option String) :
    List DbPath → Option String × List Event
  | [] => (none, [])
  | dbPath :: rest =>
    match readFile dbPath with
    | some databaseContent => (some databaseContent, [.fileRead dbPath])
    | none =>
      let r := readFirst readFile rest
      (r.1, .fileRead dbPath :: r.2)

/-- The `try` block of `loadDatabase`. -/
def loadDatabaseTry (env : Env) : Except JsError (Option Database) × List Event :=
  let r := readFirst env.readFile possiblePaths
  match r.1 with
  | none => (.error (newError "Database file not found in any expected location"), r.2)
  | some databaseContent =>
    if databaseContent = "" then
      (.error (newError "Database file not found in any expected location"), r.2)
    else
      match env.jsonParse databaseContent with
      | .error e => (.error e, r.2)
      | .ok database => (.ok database, r.2)

/-- The function `loadDatabase`: any failure is replaced by one fixed error. -/
def loadDatabase (env : Env) : Except JsError (Option Database) × List Event :=
  match loadDatabaseTry env with
  | (.ok database, ev) => (.ok database, ev)
  | (.error _, ev) => (.error (newError "Impossibile caricare il database dei vini"), ev)

/-! ## `buildPrompt` -/

/-- The line rendered for one dish. -/
def renderPiatto (p : Piatto) : String :=
  "- **" ++ p.nome ++ "** (" ++ p.categoria ++ ", intensità: " ++ p.intensita ++ "): " ++
  p.descrizione ++ ". Note aromatiche: " ++ ", ".intercalate p.note_aromatiche ++ "."

/-- The line rendered for one wine. -/
def renderVino (v : Vino) : String :=
  "- **" ++ v.nome ++ "** (" ++ v.tipo ++ ", " ++ v.regione ++ "): " ++ v.vitigno ++
  ". Note: " ++ ", ".intercalate v.note_aromatiche ++ ". Corpo: " ++ v.corpo ++ ". " ++
  v.prezzo ++ ". Ideale per: " ++ ", ".intercalate v.abbinamenti_ideali ++ "."

def systemMessageTemplate : String :=
  "Struttura della risposta obbligatoria per ogni vino:\n" ++
  "1. IL CONSIGLIO: Inizia con \"Per il [Nome Piatto], vi suggerisco il **[Nome Vino]**.\"\n" ++
  "2. I PREZZI: Subito dopo scrivi (Bottiglia: €XX | Calice: €X).\n" ++
  "3. L'ABBINAMENTO: Spiega in 2 frasi perché si sposa bene con il piatto.\n" ++
  "4. LA CANTINA: Aggiungi un paragrafo separato che inizia con \"Curiosità:\" dove racconti qualcosa sulla produzione, sul vitigno o sulla storia della cantina.\n" ++
  "\n" ++
  "IMPORTANTE: \n" ++
  "- NON usare tag HTML come <span> o classi come text-amber-400.\n" ++
  "- Usa solo il grassetto Markdown **testo** per i nomi.\n" ++
  "- Sii elegante, appassionato ma strutturato."

def buildPrompt (piatti : List Piatto) (vini : List Vino) : Prompt :=
  let piattiDescrizione := "\n".intercalate (piatti.map renderPiatto)
  let viniDisponibili := "\n".intercalate (vini.map renderVino)
  { systemMessage := systemMessageTemplate
    userMessage :=
      "Buonasera René! Ho selezionato questi piatti per la mia cena:\n\n" ++
      piattiDescrizione ++
      "\n\nEcco i vini disponibili nella vostra cantina:\n\n" ++
      viniDisponibili ++
      "\n\nPer favore, consigliatemi i migliori abbinamenti scegliendo SOLO tra i vini elencati sopra. Grazie!" }

/-! ## `callGroqAPI` -/

/-- The error raised by reading the property `property` of `null` (the
wording is that of V8). -/
def nullPropertyError (property : String) : JsError :=
  ⟨"TypeError", "Cannot read properties of null (reading '" ++ property ++ "')"⟩

/-- The `try` block of `callGroqAPI`, on the outcome of its `fetch`. -/
def callGroqAPITry (r : FetchResult) : Except JsError String :=
  match r with
  | .rejected error => .error error
  | .response status json =>
    if ¬ (200 ≤ status ∧ status ≤ 299) then
      if status = 401 then
        .error (newError "API key non valida o scaduta")
      else if status = 429 then
        .error (newError "Limite di rate raggiunto. Riprovare tra poco.")
      else if status = 503 then
        .error (newError "Servizio AI temporaneamente non disponibile")
      else
        match json with
        | .unparsable _ => .error (newError ("Errore API: " ++ toString status))
        | .null => .error (nullPropertyError "error")
        | .object none _ => .error (newError ("Errore API: " ++ toString status))
        | .object (some m) _ =>
          if m = "" then .error (newError ("Errore API: " ++ toString status))
          else .error (newError m)
    else
      match json with
      | .unparsable error => .error error
      | .null => .error (nullPropertyError "choices")
      | .object _ none => .error (newError "Risposta API non valida")
      | .object _ (some none) => .error (newError "Risposta vuota dall'AI")
      | .object _ (some (some consiglio)) =>
        if consiglio = "" ∨ trimIsEmpty consiglio then
          .error (newError "Risposta vuota dall'AI")
        else
          .ok consiglio

/-- The function `callGroqAPI`: the `catch` block turns an `AbortError` into
the timeout error and rethrows anything else. -/
def callGroqAPI (r : FetchResult) : Except JsError String :=
  match callGroqAPITry r with
  | .ok consiglio => .ok consiglio
  | .error error =>
    if error.name = "AbortError" then
      .error (newError ("Timeout: richiesta interrotta dopo " ++
        toString (TIMEOUT_MS / 1000) ++ " secondi"))
    else
      .error error

/-! ## `callGroqWithRetry` -/

/-- The test `Don't retry on certain errors` of `callGroqWithRetry`. -/
def isNonRetryable (message : String) : Bool :=
  includes message "API key" || includes message "400" || includes message "401"

/-- The `for` loop of `callGroqWithRetry`, from iteration `attempt` on.  The
first argument bounds the number of iterations still to run; the loop leaves
through `throw lastError` when `attempt <= maxRetries` fails.  The backoff
delay is the argument `Math.pow(2, attempt) * 1000` given to `setTimeout`,
which double arithmetic computes exactly for any attempt a run can reach. -/
def retryLoop (upstream : Nat → FetchResult) (apiKey : String) (prompt : Prompt)
    (maxRetries : Nat) :
    Nat → Nat → Option JsError → Except (Option JsError) String × List Event
  | 0, _, lastError => (.error lastError, [])
  | fuel + 1, attempt, lastError =>
    if attempt ≤ maxRetries then
      let backoff : List Event :=
        if attempt > 0 then [.wait (2 ^ attempt * 1000)] else []
      match callGroqAPI (upstream attempt) with
      | .ok response => (.ok response, backoff ++ [.apiCall apiKey prompt])
      | .error error =>
        if isNonRetryable error.message then
          (.error (some error), backoff ++ [.apiCall apiKey prompt])
        else if attempt = maxRetries then
          (.error (some (newError ("Falliti tutti i tentativi: " ++ error.message))),
            backoff ++ [.apiCall apiKey prompt])
        else
          let r := retryLoop upstream apiKey prompt maxRetries fuel (attempt + 1) (some error)
          (r.1, backoff ++ [.apiCall apiKey prompt] ++ r.2)
    else
      (.error lastError, [])

/-- The function `callGroqWithRetry`.  The loop runs at most `maxRetries + 1`
iterations, so that many suffice as a bound. -/
def callGroqWithRetry (upstream : Nat → FetchResult) (apiKey : String) (prompt : Prompt)
    (maxRetries : Nat) : Except (Option JsError) String × List Event :=
  retryLoop upstream apiKey prompt maxRetries (maxRetries + 1) 0 none

/-! ## `handler` -/

def corsHeaders : List (String × String) :=
  [("Access-Control-Allow-Credentials", "true"),
   ("Access-Control-Allow-Origin", "*"),
   ("Access-Control-Allow-Methods", "GET,OPTIONS,POST"),
   ("Access-Control-Allow-Headers", "Content-Type")]

/-- A JSON response carrying only an `error` message. -/
def errorResponse (status : Nat) (error : String) : Response :=
  { status := status, body := .error error none, headers := corsHeaders }

/-- The status and message chosen by the `catch` block of `handler`. -/
def classifyError (message : String) : Nat × String :=
  if includes message "timeout" || includes message "ETIMEDOUT" then
    (504, "Timeout: il servizio AI sta impiegando troppo tempo. Riprovare.")
  else if includes message "API key" then
    (401, "Errore di autenticazione con il servizio AI.")
  else if includes message "rate limit" then
    (429, "Troppe richieste. Attendere un momento e riprovare.")
  else if includes message "network" || includes message "fetch" then
    (503, "Errore di connessione al servizio AI. Verificare la connessione.")
  else
    (500, "Si è verificato un errore imprevisto.")

/-- The `catch` block of `handler`.  Reading `error.message` of the value
`undefined` raises inside the block, and no response is sent. -/
def handlerCatch (nodeEnv : Option String) (thrown : Option JsError) : Option Response :=
  match thrown with
  | none => none
  | some error =>
    let c := classifyError error.message
    some { status := c.1
           body := .error c.2 (if nodeEnv = some "development" then some error.message else none)
           headers := corsHeaders }

/-- The error raised by destructuring `piatti` out of `req.body` when the body
is `undefined` or `null` (the wording is that of V8). -/
def destructureError (what : String) : JsError :=
  ⟨"TypeError", "Cannot destructure property 'piatti' of 'req.body' as it is " ++ what ++ "."⟩

/-- The `try` block of `handler`. -/
def handlerTry (env : Env) (req : Request) : Except (Option JsError) Response × List Event :=
  let missingKey : Response :=
    errorResponse 500 "Configurazione del server non valida. Contattare l'amministratore."
  let noDish : Response :=
    errorResponse 400 "Nessun piatto selezionato. Selezionare almeno un piatto."
  match env.apiKey with
  | none => (.ok missingKey, [])
  | some apiKey =>
    if apiKey = "" then (.ok missingKey, [])
    else
      match req.body with
      | .undefined => (.error (some (destructureError "undefined")), [])
      | .null => (.error (some (destructureError "null")), [])
      | .value .missing => (.ok noDish, [])
      | .value .nonArray => (.ok noDish, [])
      | .value (.array piatti) =>
        if piatti.length = 0 then (.ok noDish, [])
        else if piatti.length > 5 then
          (.ok (errorResponse 400 "Troppi piatti selezionati. Massimo 5 piatti."), [])
        else
          match loadDatabase env with
          | (.error e, ev) => (.error (some e), ev)
          | (.ok none, ev) => (.ok (errorResponse 500 "Database dei vini non disponibile."), ev)
          | (.ok (some database), ev) =>
            match database.vini with
            | none => (.ok (errorResponse 500 "Database dei vini non disponibile."), ev)
            | some vini =>
              if vini.length = 0 then
                (.ok (errorResponse 500 "Database dei vini non disponibile."), ev)
              else
                let prompt := buildPrompt piatti vini
                match callGroqWithRetry env.upstream apiKey prompt MAX_RETRIES with
                | (.error e, ev2) => (.error e, ev ++ ev2)
                | (.ok consiglio, ev2) =>
                  (.ok { status := 200
                         body := .recommendation consiglio (piatti.map (·.nome)) env.now
                         headers := corsHeaders }, ev ++ ev2)

/-- The function `handler` (the default export of `api/consiglio.js`). -/
def handler (env : Env) (req : Request) : HandlerResult :=
  if req.method = "OPTIONS" then
    { response := some { status := 200, body := .ended, headers := corsHeaders }, events := [] }
  else if req.method ≠ "POST" then
    { response := some (errorResponse 405 "Metodo non consentito. Utilizzare POST."), events := [] }
  else
    match handlerTry env req with
    | (.ok res, ev) => { response := some res, events := ev }
    | (.error thrown, ev) => { response := handlerCatch env.nodeEnv thrown, events := ev }

/-! ## The documented retry schedule -/

/-- The trace of a run of `callGroqWithRetry` that makes `n` retries: a first
upstream call with no wait before it, then for each retry `k = 1, ..., n` a
wait of `2 ^ k` seconds followed by an upstream call. -/
def retrySchedule (apiKey : String) (prompt : Prompt) : Nat → List Event
  | 0 => [.apiCall apiKey prompt]
  | n + 1 =>
    retrySchedule apiKey prompt n ++ [.wait (2 ^ (n + 1) * 1000), .apiCall apiKey prompt]

/-- The part of the schedule already performed when iteration `attempt` starts. -/
def schedulePrefix (apiKey : String) (prompt : Prompt) : Nat → List Event
  | 0 => []
  | a + 1 => retrySchedule apiKey prompt a

/-- What `callGroqWithRetry` makes of the attempt it stops at. -/
def finalOutcome (r : Except JsError String) : Except (Option JsError) String :=
  match r with
  | .ok response => .ok response
  | .error error =>
    if isNonRetryable error.message then .error (some error)
    else .error (some (newError ("Falliti tutti i tentativi: " ++ error.message)))

/-- Attempt `k` fails with an error that the retry loop treats as transient. -/
def failsRetryably (upstream : Nat → FetchResult) (k : Nat) : Prop :=
  ∃ error, callGroqAPI (upstream k) = .error error ∧ isNonRetryable error.message = false

/-- Attempt `k` ends the loop when it is reached with `maxRetries` allowed. -/
def stopsAt (upstream : Nat → FetchResult) (maxRetries k : Nat) : Prop :=
  (∃ response, callGroqAPI (upstream k) = .ok response) ∨
  (∃ error, callGroqAPI (upstream k) = .error error ∧ isNonRetryable error.message = true) ∨
  k = maxRetries

/-- The preconditions of a run that reaches the upstream API: a credential is
configured, the request carries the dishes `piatti` (1 to 5 of them), and the
catalog loads to an object whose wine list is the non-empty list `vini`. -/
def ValidRun (env : Env) (apiKey : String) (piatti : List Piatto) (vini : List Vino) : Prop :=
  env.apiKey = some apiKey ∧ apiKey ≠ "" ∧
  1 ≤ piatti.length ∧ piatti.length ≤ 5 ∧
  (∃ database, (loadDatabase env).1 = .ok (some database) ∧ database.vini = some vini) ∧
  vini ≠ []

/-- The loaded catalog is rejected by the handler: the parsed value is falsy,
or its wine list is missing or empty. -/
def winesUnavailable : Option Database → Prop
  | none => True
  | some database => database.vini = none ∨ database.vini = some []

/-- The dish list is rejected by the handler's payload validation: the
property is missing, is not an array, is empty, or has more than 5 entries. -/
def invalidPiatti : PiattiValue → Prop
  | .missing => True
  | .nonArray => True
  | .array items => items.length = 0 ∨ 5 < items.length

/-! ## The documented shape of the prompt -/

/-- The entries one after the other, the separator between each two. -/
def joinWith (sep : String) : List String → String
  | [] => ""
  | [entry] => entry
  | entry :: next :: rest => entry ++ sep ++ joinWith sep (next :: rest)

/-! ## Immediate re-raise -/

/-- The run of `callGroqWithRetry` re-raises `error` immediately: it throws
that very error, after exactly one invocation of `callGroqAPI` and no backoff
wait. -/
def reraisedAtOnce (upstream : Nat → FetchResult) (apiKey : String) (prompt : Prompt)
    (maxRetries : Nat) (error : JsError) : Prop :=
  (callGroqWithRetry upstream apiKey prompt maxRetries).1 = .error (some error) ∧
  apiCalls (callGroqWithRetry upstream apiKey prompt maxRetries).2 = 1 ∧
  waits (callGroqWithRetry upstream apiKey prompt maxRetries).2 = []

/-- The upstream response carries no usable `error.message`: its body is not
JSON, or the message is absent or empty. -/
def hasNoErrorMessage : ResponseJson → Prop
  | .unparsable _ => True
  | .null => False
  | .object none _ => True
  | .object (some m) _ => m = ""

/-- An upstream that answers the first attempts as listed and aborts on the
timeout ever after. -/
def scriptedUpstream (script : List FetchResult) (n : Nat) : FetchResult :=
  script.getD n (.rejected ⟨"AbortError", "This operation was aborted"⟩)

/-! ## Test fixtures -/

def samplePiatto : Piatto :=
  { nome := "Risotto ai funghi", categoria := "Primi", intensita := "media",
    descrizione := "Risotto mantecato con porcini", note_aromatiche := ["terroso", "burroso"] }

def sampleVino : Vino :=
  { nome := "Barolo", tipo := "Rosso", regione := "Piemonte", vitigno := "Nebbiolo",
    note_aromatiche := ["rosa", "catrame"], corpo := "pieno", prezzo := "Bottiglia: €60",
    abbinamenti_ideali := ["brasato", "tartufo"] }

/-- An environment with a credential, a catalog at the first candidate path
holding the given lists, and the given upstream and runtime mode. -/
def sampleEnv (piatti : Option (List Piatto)) (vini : Option (List Vino))
    (upstream : Nat → FetchResult) (nodeEnv : Option String) : Env :=
  { apiKey := some "gsk_test"
    nodeEnv := nodeEnv
    readFile := fun p => if p = .cwdDatabase then some "catalog" else none
    jsonParse := fun _ => .ok (some { piatti := piatti, vini := vini })
    upstream := upstream
    now := "2025-01-01T00:00:00.000Z" }

/-- The sample environment without the credential. -/
def noKeyEnv : Env :=
  { sampleEnv none (some [sampleVino]) (fun _ => .response 200 (.object none none)) none with
    apiKey := none }

def postRequest (items : List Piatto) : Request :=
  { method := "POST", body := .value (.array items) }

/-! ## Facts about the fixed messages -/

theorem callGroqAPI_401 (json : ResponseJson) :
    callGroqAPI (.response 401 json) = .error (newError "API key non valida o scaduta") := by
  cases json <;> rfl

theorem callGroqAPI_429 (json : ResponseJson) :
    callGroqAPI (.response 429 json) =
      .error (newError "Limite di rate raggiunto. Riprovare tra poco.") := by
  cases json <;> rfl

theorem callGroqAPI_503 (json : ResponseJson) :
    callGroqAPI (.response 503 json) =
      .error (newError "Servizio AI temporaneamente non disponibile") := by
  cases json <;> rfl

theorem callGroqAPI_abort (message : String) :
    callGroqAPI (.rejected ⟨"AbortError", message⟩) =
      .error (newError "Timeout: richiesta interrotta dopo 25 secondi") := by
  rfl

theorem callGroqAPI_success (status : Nat) (errorMessage : Option String) (t : String)
    (hs : 200 ≤ status ∧ status ≤ 299) (ht : trimIsEmpty t = false) :
    callGroqAPI (.response status (.object errorMessage (some (some t)))) = .ok t := by
  have hne : t ≠ "" := by
    intro h
    subst h
    simp [trimIsEmpty] at ht
  simp [callGroqAPI, callGroqAPITry, hs, ht, hne]

/-! ## Traces of the catalog loader -/

theorem readFirst_apiCalls (readFile : DbPath → Option String) (paths : List DbPath) :
    apiCalls (readFirst readFile paths).2 = 0 ∧ waits (readFirst readFile paths).2 = [] := by
  induction paths with
  | nil => simp [readFirst, apiCalls, waits]
  | cons p ps ih =>
    unfold readFirst
    cases readFile p with
    | some c => simp [apiCalls, waits]
    | none =>
      simp only [apiCalls, waits] at ih ⊢
      simp [ih.1, ih.2]

theorem loadDatabase_events (env : Env) :
    (loadDatabase env).2 = (readFirst env.readFile possiblePaths).2 := by
  unfold loadDatabase loadDatabaseTry
  generalize readFirst env.readFile possiblePaths = r
  obtain ⟨c, ev⟩ := r
  cases c with
  | none => rfl
  | some c =>
    by_cases hc : c = ""
    · simp [hc]
    · cases hp : env.jsonParse c <;> simp [hc, hp]

theorem loadDatabase_apiCalls (env : Env) :
    apiCalls (loadDatabase env).2 = 0 ∧ waits (loadDatabase env).2 = [] := by
  rw [loadDatabase_events]
  exact readFirst_apiCalls _ _

/-! ## Request validation -/

/-- With a credential configured and a body present, a dish list outside
the bounds is answered with status 400, and nothing is read from the file
system or sent upstream. -/
theorem handler_invalid_piatti (env : Env) (apiKey : String) (piatti : PiattiValue)
    (hk : env.apiKey = some apiKey) (hne : apiKey ≠ "") (hp : invalidPiatti piatti) :
    ∃ message, handler env ⟨"POST", .value piatti⟩ =
      ⟨some (errorResponse 400 message), []⟩ := by
  cases piatti with
  | missing =>
    exact ⟨"Nessun piatto selezionato. Selezionare almeno un piatto.",
      by simp [handler, handlerTry, hk, hne]⟩
  | nonArray =>
    exact ⟨"Nessun piatto selezionato. Selezionare almeno un piatto.",
      by simp [handler, handlerTry, hk, hne]⟩
  | array items =>
    rcases hp with h0 | h5
    · exact ⟨"Nessun piatto selezionato. Selezionare almeno un piatto.",
        by simp [handler, handlerTry, hk, hne, h0]⟩
    · have h0 : items.length ≠ 0 := by omega
      exact ⟨"Troppi piatti selezionati. Massimo 5 piatti.",
        by simp [handler, handlerTry, hk, hne, h0, h5]⟩

/-- C1, at the failing input: a POST request without a body (so without a
`piatti` field), handled with a credential configured, is answered with
status 500 and the generic message, not with status 400; it reads no file and
makes no upstream call. -/
theorem handler_post_without_body :
    handler (sampleEnv none (some [sampleVino]) (fun _ => .response 200 (.object none none)) none)
        ⟨"POST", .undefined⟩ =
      ⟨some (errorResponse 500 "Si è verificato un errore imprevisto."), []⟩ := by
  decide

/-- C2: on a POST request, whatever its body, an absent credential (unset or
empty) is answered with status 500 and the fixed configuration message, and
the run performs no event at all: no file read, no upstream call. -/
theorem handler_missing_credential (env : Env) (body : Body)
    (hk : env.apiKey = none ∨ env.apiKey = some "") :
    (handler env ⟨"POST", body⟩).response =
        some (errorResponse 500
          "Configurazione del server non valida. Contattare l'amministratore.") ∧
      (handler env ⟨"POST", body⟩).events = [] ∧
      fileReads (handler env ⟨"POST", body⟩).events = 0 ∧
      apiCalls (handler env ⟨"POST", body⟩).events = 0 := by
  have h : handler env ⟨"POST", body⟩ =
      ⟨some (errorResponse 500
        "Configurazione del server non valida. Contattare l'amministratore."), []⟩ := by
    rcases hk with hk | hk <;> simp [handler, handlerTry, hk]
  rw [h]
  simp [fileReads, apiCalls]

theorem handler_missing_credential_witness :
    (noKeyEnv.apiKey = none ∨ noKeyEnv.apiKey = some "") ∧
    (handler noKeyEnv ⟨"POST", .undefined⟩).response =
        some (errorResponse 500
          "Configurazione del server non valida. Contattare l'amministratore.") ∧
      (handler noKeyEnv ⟨"POST", .undefined⟩).events = [] ∧
      fileReads (handler noKeyEnv ⟨"POST", .undefined⟩).events = 0 ∧
      apiCalls (handler noKeyEnv ⟨"POST", .undefined⟩).events = 0 :=
  ⟨Or.inl rfl, handler_missing_credential noKeyEnv .undefined (Or.inl rfl)⟩

/-! ## The retry loop -/

theorem apiCalls_append (a b : List Event) : apiCalls (a ++ b) = apiCalls a + apiCalls b := by
  simp [apiCalls, List.countP_append]

theorem waits_append (a b : List Event) : waits (a ++ b) = waits a ++ waits b := by
  simp [waits, List.filterMap_append]

theorem fileReads_append (a b : List Event) :
    fileReads (a ++ b) = fileReads a + fileReads b := by
  simp [fileReads, List.countP_append]

theorem apiCalls_retrySchedule (apiKey : String) (prompt : Prompt) (n : Nat) :
    apiCalls (retrySchedule apiKey prompt n) = n + 1 := by
  induction n with
  | zero => simp [retrySchedule, apiCalls]
  | succ n ih =>
    rw [retrySchedule, apiCalls_append, ih]
    simp [apiCalls]

theorem waits_retrySchedule (apiKey : String) (prompt : Prompt) (n : Nat) :
    waits (retrySchedule apiKey prompt n) = (List.range n).map fun i => 2 ^ (i + 1) * 1000 := by
  induction n with
  | zero => simp [retrySchedule, waits]
  | succ n ih =>
    rw [retrySchedule, waits_append, ih, List.range_succ]
    simp [waits]

theorem schedulePrefix_step (apiKey : String) (prompt : Prompt) (a : Nat) :
    schedulePrefix apiKey prompt a ++
        ((if a > 0 then [Event.wait (2 ^ a * 1000)] else []) ++ [Event.apiCall apiKey prompt]) =
      retrySchedule apiKey prompt a := by
  cases a with
  | zero => simp [schedulePrefix, retrySchedule]
  | succ a => simp [schedulePrefix, retrySchedule]

/-- Full description of the loop started at iteration `attempt` with enough
iterations allowed: it stops at some attempt `n`, every attempt before `n`
failed retryably, attempt `n` ends the loop, the result is what
`finalOutcome` makes of attempt `n`, and the trace completes the schedule. -/
theorem retryLoop_spec (upstream : Nat → FetchResult) (apiKey : String) (prompt : Prompt)
    (maxRetries : Nat) :
    ∀ (fuel attempt : Nat) (lastError : Option JsError),
      attempt ≤ maxRetries → maxRetries + 1 ≤ attempt + fuel →
      ∃ n, attempt ≤ n ∧ n ≤ maxRetries ∧
        (∀ j, attempt ≤ j → j < n → failsRetryably upstream j) ∧
        stopsAt upstream maxRetries n ∧
        (retryLoop upstream apiKey prompt maxRetries fuel attempt lastError).1 =
          finalOutcome (callGroqAPI (upstream n)) ∧
        schedulePrefix apiKey prompt attempt ++
            (retryLoop upstream apiKey prompt maxRetries fuel attempt lastError).2 =
          retrySchedule apiKey prompt n := by
  intro fuel
  induction fuel with
  | zero => intro attempt _ h1 h2; omega
  | succ fuel ih =>
    intro attempt lastError h1 h2
    cases hc : callGroqAPI (upstream attempt) with
    | ok response =>
      refine ⟨attempt, le_refl _, h1, fun j h3 h4 => by omega, Or.inl ⟨response, hc⟩, ?_, ?_⟩
      · simp [retryLoop, h1, hc, finalOutcome]
      · simp only [retryLoop, h1, hc, if_true]
        exact schedulePrefix_step apiKey prompt attempt
    | error error =>
      by_cases hn : isNonRetryable error.message = true
      · refine ⟨attempt, le_refl _, h1, fun j h3 h4 => by omega,
          Or.inr (Or.inl ⟨error, hc, hn⟩), ?_, ?_⟩
        · simp [retryLoop, h1, hc, hn, finalOutcome]
        · simp only [retryLoop, h1, hc, hn, if_true]
          exact schedulePrefix_step apiKey prompt attempt
      · by_cases hm : attempt = maxRetries
        · subst hm
          refine ⟨attempt, le_refl _, h1, fun j h3 h4 => by omega, Or.inr (Or.inr rfl), ?_, ?_⟩
          · simp [retryLoop, hc, hn, finalOutcome]
          · simp only [retryLoop, h1, hc, hn, if_true]
            simpa using schedulePrefix_step apiKey prompt attempt
        · obtain ⟨n, h3, h4, h5, h6, h7, h8⟩ :=
            ih (attempt + 1) (some error) (by omega) (by omega)
          refine ⟨n, by omega, h4, ?_, h6, ?_, ?_⟩
          · intro j h9 h10
            by_cases hj : j = attempt
            · subst hj
              exact ⟨error, hc, by simpa using hn⟩
            · exact h5 j (by omega) h10
          · simp only [retryLoop, h1, hc, hn, hm, if_true]
            simpa using h7
          · simp only [retryLoop, h1, hc, hn, hm, if_true]
            have h9 : schedulePrefix apiKey prompt (attempt + 1) =
                retrySchedule apiKey prompt attempt := rfl
            rw [← h8, h9, ← schedulePrefix_step apiKey prompt attempt]
            simp [List.append_assoc]

/-- The bound on the number of iterations is immaterial once it covers the
iterations left: allowing one more changes nothing. -/
theorem retryLoop_fuel_succ (upstream : Nat → FetchResult) (apiKey : String) (prompt : Prompt)
    (maxRetries : Nat) :
    ∀ (fuel attempt : Nat) (lastError : Option JsError),
      attempt ≤ maxRetries → maxRetries + 1 ≤ attempt + fuel →
      retryLoop upstream apiKey prompt maxRetries (fuel + 1) attempt lastError =
        retryLoop upstream apiKey prompt maxRetries fuel attempt lastError := by
  intro fuel
  induction fuel with
  | zero => intro attempt _ h1 h2; omega
  | succ fuel ih =>
    intro attempt lastError h1 h2
    rw [retryLoop, retryLoop.eq_def upstream apiKey prompt maxRetries (fuel + 1)]
    simp only [h1, if_true]
    cases callGroqAPI (upstream attempt) with
    | ok response => rfl
    | error error =>
      by_cases hn : isNonRetryable error.message = true
      · simp [hn]
      · by_cases hm : attempt = maxRetries
        · simp [hn, hm]
        · simp only [hn, hm, if_false]
          rw [ih (attempt + 1) (some error) (by omega) (by omega)]

/-- Full description of `callGroqWithRetry`. -/
theorem callGroqWithRetry_spec (upstream : Nat → FetchResult) (apiKey : String)
    (prompt : Prompt) (maxRetries : Nat) :
    ∃ n, n ≤ maxRetries ∧
      (∀ j, j < n → failsRetryably upstream j) ∧
      stopsAt upstream maxRetries n ∧
      (callGroqWithRetry upstream apiKey prompt maxRetries).1 =
        finalOutcome (callGroqAPI (upstream n)) ∧
      (callGroqWithRetry upstream apiKey prompt maxRetries).2 =
        retrySchedule apiKey prompt n := by
  obtain ⟨n, _, h2, h3, h4, h5, h6⟩ :=
    retryLoop_spec upstream apiKey prompt maxRetries (maxRetries + 1) 0 none
      (Nat.zero_le _) (by omega)
  exact ⟨n, h2, fun j hj => h3 j (Nat.zero_le _) hj, h4, h5, by simpa [schedulePrefix] using h6⟩

/-! ## The handler on a valid run -/

theorem validRun_sampleEnv (piatti : Option (List Piatto)) (upstream : Nat → FetchResult)
    (nodeEnv : Option String) :
    ValidRun (sampleEnv piatti (some [sampleVino]) upstream nodeEnv) "gsk_test"
      [samplePiatto] [sampleVino] :=
  ⟨rfl, by decide, by decide, by decide, ⟨_, rfl, rfl⟩, by simp⟩

/-- On a valid run the handler loads the catalog, calls `callGroqWithRetry`
with `MAX_RETRIES`, and answers 200 on success or through its `catch` block
on failure. -/
theorem handler_validRun (env : Env) (apiKey : String) (piatti : List Piatto)
    (vini : List Vino) (hv : ValidRun env apiKey piatti vini) :
    handler env (postRequest piatti) =
      match callGroqWithRetry env.upstream apiKey (buildPrompt piatti vini) MAX_RETRIES with
      | (.ok consiglio, ev2) =>
        { response := some { status := 200
                             body := .recommendation consiglio (piatti.map (·.nome)) env.now
                             headers := corsHeaders }
          events := (loadDatabase env).2 ++ ev2 }
      | (.error thrown, ev2) =>
        { response := handlerCatch env.nodeEnv thrown
          events := (loadDatabase env).2 ++ ev2 } := by
  obtain ⟨hk, hne, h1, h5, ⟨database, hdb, hvini⟩, hnil⟩ := hv
  have h0 : piatti.length ≠ 0 := by omega
  have h5 : ¬ 5 < piatti.length := by omega
  have hl : vini.length ≠ 0 := by
    intro h
    exact hnil (List.length_eq_zero.mp h)
  have hld : loadDatabase env = (.ok (some database), (loadDatabase env).2) := by
    rw [← hdb]
  simp only [handler, postRequest, handlerTry, hk, hne]
  rw [hld]
  simp only [hvini]
  generalize callGroqWithRetry env.upstream apiKey (buildPrompt piatti vini) MAX_RETRIES = r
  obtain ⟨res, ev2⟩ := r
  cases res <;> simp [h0, h5, hl]

/-! ## Upstream failures seen through the handler -/

/-- C3: on a valid run, when the upstream API answers HTTP 401 the handler
responds with status 401, and `callGroqAPI` was invoked exactly once, with no
backoff wait: the authentication error is not retried. -/
theorem handler_upstream_401 (env : Env) (apiKey : String) (piatti : List Piatto)
    (vini : List Vino) (hv : ValidRun env apiKey piatti vini)
    (h401 : ∃ json, env.upstream 0 = .response 401 json) :
    (handler env (postRequest piatti)).response.map Response.status = some 401 ∧
      apiCalls (handler env (postRequest piatti)).events = 1 ∧
      waits (handler env (postRequest piatti)).events = [] := by
  obtain ⟨json, h0⟩ := h401
  have hn : isNonRetryable (newError "API key non valida o scaduta").message = true := by decide
  have hc : (classifyError (newError "API key non valida o scaduta").message).1 = 401 := by
    decide
  have hr : callGroqWithRetry env.upstream apiKey (buildPrompt piatti vini) MAX_RETRIES =
      (.error (some (newError "API key non valida o scaduta")),
        [.apiCall apiKey (buildPrompt piatti vini)]) := by
    simp [callGroqWithRetry, retryLoop, MAX_RETRIES, h0, callGroqAPI_401, hn]
  rw [handler_validRun env apiKey piatti vini hv, hr]
  simp only [apiCalls_append, waits_append, (loadDatabase_apiCalls env).1,
    (loadDatabase_apiCalls env).2]
  simp [handlerCatch, hc, apiCalls, waits]

theorem handler_upstream_401_witness :
    (handler (sampleEnv none (some [sampleVino]) (fun _ => .response 401 (.object none none)) none)
        (postRequest [samplePiatto])).response.map Response.status = some 401 ∧
      apiCalls (handler
        (sampleEnv none (some [sampleVino]) (fun _ => .response 401 (.object none none)) none)
        (postRequest [samplePiatto])).events = 1 ∧
      waits (handler
        (sampleEnv none (some [sampleVino]) (fun _ => .response 401 (.object none none)) none)
        (postRequest [samplePiatto])).events = [] :=
  handler_upstream_401 _ "gsk_test" [samplePiatto] [sampleVino]
    (validRun_sampleEnv _ _ _) ⟨_, rfl⟩

/-- The handler's answer, on a valid run, when every one of the three
attempts fails with the same error whose message is retried by the loop: the
status is the one `classifyError` gives to the wrapped message, after three
upstream calls and waits of 2000 ms and 4000 ms. -/
theorem handler_all_attempts_fail (env : Env) (apiKey : String) (piatti : List Piatto)
    (vini : List Vino) (message : String) (hv : ValidRun env apiKey piatti vini)
    (hfail : ∀ k, callGroqAPI (env.upstream k) = .error (newError message))
    (hretry : isNonRetryable message = false) :
    (handler env (postRequest piatti)).response.map Response.status =
        some (classifyError ("Falliti tutti i tentativi: " ++ message)).1 ∧
      apiCalls (handler env (postRequest piatti)).events = 3 ∧
      waits (handler env (postRequest piatti)).events = [2000, 4000] := by
  have hr : callGroqWithRetry env.upstream apiKey (buildPrompt piatti vini) MAX_RETRIES =
      (.error (some (newError ("Falliti tutti i tentativi: " ++ message))),
        [.apiCall apiKey (buildPrompt piatti vini), .wait 2000,
          .apiCall apiKey (buildPrompt piatti vini), .wait 4000,
          .apiCall apiKey (buildPrompt piatti vini)]) := by
    simp [callGroqWithRetry, retryLoop, MAX_RETRIES, hfail, hretry, newError]
  rw [handler_validRun env apiKey piatti vini hv, hr]
  simp only [apiCalls_append, waits_append, (loadDatabase_apiCalls env).1,
    (loadDatabase_apiCalls env).2]
  simp [handlerCatch, newError, apiCalls, waits]

/-- When every attempt is aborted by the timeout, the handler responds with
status 500 (and the generic message), never with 504. -/
theorem handler_all_timeouts (env : Env) (apiKey : String) (piatti : List Piatto)
    (vini : List Vino) (hv : ValidRun env apiKey piatti vini)
    (habort : ∀ k, ∃ message, env.upstream k = .rejected ⟨"AbortError", message⟩) :
    (handler env (postRequest piatti)).response.map Response.status = some 500 ∧
      apiCalls (handler env (postRequest piatti)).events = 3 := by
  have hfail : ∀ k, callGroqAPI (env.upstream k) =
      .error (newError "Timeout: richiesta interrotta dopo 25 secondi") := by
    intro k
    obtain ⟨m, hm⟩ := habort k
    rw [hm, callGroqAPI_abort]
  have h := handler_all_attempts_fail env apiKey piatti vini _ hv hfail (by decide)
  have hc : (classifyError ("Falliti tutti i tentativi: " ++
      "Timeout: richiesta interrotta dopo 25 secondi")).1 = 500 := by decide
  rw [hc] at h
  exact ⟨h.1, h.2.1⟩

/-- When every attempt is answered HTTP 429, or every attempt HTTP 503, the
handler responds with status 500, not with the upstream status. -/
theorem handler_all_429_or_503 (env : Env) (apiKey : String) (piatti : List Piatto)
    (vini : List Vino) (s : Nat) (hv : ValidRun env apiKey piatti vini)
    (hs : s = 429 ∨ s = 503)
    (hup : ∀ k, ∃ json, env.upstream k = .response s json) :
    (handler env (postRequest piatti)).response.map Response.status = some 500 ∧
      apiCalls (handler env (postRequest piatti)).events = 3 := by
  rcases hs with hs | hs <;> subst hs
  · have hfail : ∀ k, callGroqAPI (env.upstream k) =
        .error (newError "Limite di rate raggiunto. Riprovare tra poco.") := by
      intro k
      obtain ⟨j, hj⟩ := hup k
      rw [hj, callGroqAPI_429]
    have h := handler_all_attempts_fail env apiKey piatti vini _ hv hfail (by decide)
    have hc : (classifyError ("Falliti tutti i tentativi: " ++
        "Limite di rate raggiunto. Riprovare tra poco.")).1 = 500 := by decide
    rw [hc] at h
    exact ⟨h.1, h.2.1⟩
  · have hfail : ∀ k, callGroqAPI (env.upstream k) =
        .error (newError "Servizio AI temporaneamente non disponibile") := by
      intro k
      obtain ⟨j, hj⟩ := hup k
      rw [hj, callGroqAPI_503]
    have h := handler_all_attempts_fail env apiKey piatti vini _ hv hfail (by decide)
    have hc : (classifyError ("Falliti tutti i tentativi: " ++
        "Servizio AI temporaneamente non disponibile")).1 = 500 := by decide
    rw [hc] at h
    exact ⟨h.1, h.2.1⟩

/-- C4, at the failing input: one dish, credential and catalog present, every
upstream attempt aborted by the 25 s timeout.  After three attempts the
handler responds with status 500 and the generic message (the message
`Falliti tutti i tentativi: Timeout: ...` has no lower-case `timeout`), not
with status 504. -/
theorem handler_timeouts_give_500 :
    (handler
        (sampleEnv none (some [sampleVino])
          (fun _ => .rejected ⟨"AbortError", "This operation was aborted"⟩) (some "development"))
        (postRequest [samplePiatto])).response =
      some { status := 500
             body := .error "Si è verificato un errore imprevisto."
               (some "Falliti tutti i tentativi: Timeout: richiesta interrotta dopo 25 secondi")
             headers := corsHeaders } ∧
    apiCalls (handler
        (sampleEnv none (some [sampleVino])
          (fun _ => .rejected ⟨"AbortError", "This operation was aborted"⟩) (some "development"))
        (postRequest [samplePiatto])).events = 3 := by
  decide

/-- C5, at the failing inputs: one dish, credential and catalog present, every
upstream attempt answered HTTP 429, respectively HTTP 503.  In both runs the
handler responds with status 500 and the generic message, not with 429 or
503. -/
theorem handler_429_and_503_give_500 :
    (handler
        (sampleEnv none (some [sampleVino]) (fun _ => .response 429 (.object none none))
          (some "development"))
        (postRequest [samplePiatto])).response =
      some { status := 500
             body := .error "Si è verificato un errore imprevisto."
               (some "Falliti tutti i tentativi: Limite di rate raggiunto. Riprovare tra poco.")
             headers := corsHeaders } ∧
    (handler
        (sampleEnv none (some [sampleVino]) (fun _ => .response 503 (.object none none))
          (some "development"))
        (postRequest [samplePiatto])).response =
      some { status := 500
             body := .error "Si è verificato un errore imprevisto."
               (some "Falliti tutti i tentativi: Servizio AI temporaneamente non disponibile")
             headers := corsHeaders } := by
  decide

/-- C6: on a valid run, when the upstream answers HTTP 503 on the first two
attempts and, on the third, a success status with a completion text `t` that
has a non-whitespace character, the handler responds with status 200 and
`consiglio = t`, after exactly three upstream calls (and waits of 2000 ms and
4000 ms). -/
theorem handler_recovers_on_third_attempt (env : Env) (apiKey : String)
    (piatti : List Piatto) (vini : List Vino) (status : Nat) (errorMessage : Option String)
    (t : String) (hv : ValidRun env apiKey piatti vini)
    (h0 : ∃ json, env.upstream 0 = .response 503 json)
    (h1 : ∃ json, env.upstream 1 = .response 503 json)
    (h2 : env.upstream 2 = .response status (.object errorMessage (some (some t))))
    (hs : 200 ≤ status ∧ status ≤ 299) (ht : trimIsEmpty t = false) :
    (handler env (postRequest piatti)).response =
        some { status := 200
               body := .recommendation t (piatti.map (·.nome)) env.now
               headers := corsHeaders } ∧
      apiCalls (handler env (postRequest piatti)).events = 3 ∧
      waits (handler env (postRequest piatti)).events = [2000, 4000] := by
  obtain ⟨j0, h0⟩ := h0
  obtain ⟨j1, h1⟩ := h1
  have hn : isNonRetryable (newError "Servizio AI temporaneamente non disponibile").message =
      false := by decide
  have hr : callGroqWithRetry env.upstream apiKey (buildPrompt piatti vini) MAX_RETRIES =
      (.ok t,
        [.apiCall apiKey (buildPrompt piatti vini), .wait 2000,
          .apiCall apiKey (buildPrompt piatti vini), .wait 4000,
          .apiCall apiKey (buildPrompt piatti vini)]) := by
    simp [callGroqWithRetry, retryLoop, MAX_RETRIES, h0, h1, h2, callGroqAPI_503,
      callGroqAPI_success status errorMessage t hs ht, hn]
  rw [handler_validRun env apiKey piatti vini hv, hr]
  simp only [apiCalls_append, waits_append, (loadDatabase_apiCalls env).1,
    (loadDatabase_apiCalls env).2]
  simp [apiCalls, waits]

theorem handler_recovers_on_third_attempt_witness :
    (handler
        (sampleEnv none (some [sampleVino])
          (fun n => if n < 2 then .response 503 (.object none none)
            else .response 200 (.object none (some (some "Barolo")))) none)
        (postRequest [samplePiatto])).response =
      some { status := 200
             body := .recommendation "Barolo" ([samplePiatto].map (·.nome))
               "2025-01-01T00:00:00.000Z"
             headers := corsHeaders } ∧
    apiCalls (handler
        (sampleEnv none (some [sampleVino])
          (fun n => if n < 2 then .response 503 (.object none none)
            else .response 200 (.object none (some (some "Barolo")))) none)
        (postRequest [samplePiatto])).events = 3 ∧
    waits (handler
        (sampleEnv none (some [sampleVino])
          (fun n => if n < 2 then .response 503 (.object none none)
            else .response 200 (.object none (some (some "Barolo")))) none)
        (postRequest [samplePiatto])).events = [2000, 4000] :=
  handler_recovers_on_third_attempt _ "gsk_test" [samplePiatto] [sampleVino] 200 none "Barolo"
    (validRun_sampleEnv _ _ _) ⟨_, rfl⟩ ⟨_, rfl⟩ rfl (by decide) (by decide)

/-! ## Number of attempts and backoff schedule -/

theorem failsRetryably_not_stop (upstream : Nat → FetchResult) (maxRetries n : Nat)
    (hf : failsRetryably upstream n) (hs : stopsAt upstream maxRetries n) : n = maxRetries := by
  obtain ⟨e, he, hr⟩ := hf
  rcases hs with ⟨r, hr2⟩ | ⟨e2, he2, hn2⟩ | h
  · rw [he] at hr2
    cases hr2
  · rw [he] at he2
    cases he2
    rw [hr] at hn2
    cases hn2
  · exact h

/-- C7: `callGroqWithRetry` invokes `callGroqAPI` at most `maxRetries + 1`
times whatever the upstream does; exactly `maxRetries + 1` times when every
attempt fails with an error the loop retries; when attempt `k` is the first
success it stops there, after `k + 1` invocations, returning that response;
and in no run is an attempt made after one that succeeds. -/
theorem callGroqWithRetry_attempts (upstream : Nat → FetchResult) (apiKey : String)
    (prompt : Prompt) (maxRetries : Nat) :
    apiCalls (callGroqWithRetry upstream apiKey prompt maxRetries).2 ≤ maxRetries + 1 ∧
    ((∀ k, k ≤ maxRetries → failsRetryably upstream k) →
      apiCalls (callGroqWithRetry upstream apiKey prompt maxRetries).2 = maxRetries + 1) ∧
    (∀ k response, k ≤ maxRetries → (∀ j, j < k → failsRetryably upstream j) →
      callGroqAPI (upstream k) = .ok response →
      apiCalls (callGroqWithRetry upstream apiKey prompt maxRetries).2 = k + 1 ∧
        (callGroqWithRetry upstream apiKey prompt maxRetries).1 = .ok response) ∧
    (∀ k response, callGroqAPI (upstream k) = .ok response →
      apiCalls (callGroqWithRetry upstream apiKey prompt maxRetries).2 ≤ k + 1) := by
  obtain ⟨n, h1, h2, h3, h4, h5⟩ := callGroqWithRetry_spec upstream apiKey prompt maxRetries
  rw [h5, h4, apiCalls_retrySchedule]
  refine ⟨by omega, ?_, ?_, ?_⟩
  · intro hall
    rw [failsRetryably_not_stop upstream maxRetries n (hall n h1) h3]
  · intro k response hk hbefore hok
    have hnk : n = k := by
      rcases Nat.lt_trichotomy n k with h | h | h
      · have := failsRetryably_not_stop upstream maxRetries n (hbefore n h) h3
        omega
      · exact h
      · obtain ⟨e, he, _⟩ := h2 k h
        rw [he] at hok
        cases hok
    subst hnk
    rw [hok]
    exact ⟨rfl, rfl⟩
  · intro k response hok
    by_contra hlt
    obtain ⟨e, he, _⟩ := h2 k (by omega)
    rw [he] at hok
    cases hok

theorem callGroqWithRetry_attempts_witness :
    apiCalls (callGroqWithRetry (fun _ => .response 503 (.object none none)) "gsk_test"
      (buildPrompt [samplePiatto] [sampleVino]) 2).2 = 2 + 1 ∧
    (apiCalls (callGroqWithRetry
        (fun n => if n < 1 then .response 503 (.object none none)
          else .response 200 (.object none (some (some "Barolo")))) "gsk_test"
        (buildPrompt [samplePiatto] [sampleVino]) 2).2 = 1 + 1 ∧
      (callGroqWithRetry
        (fun n => if n < 1 then .response 503 (.object none none)
          else .response 200 (.object none (some (some "Barolo")))) "gsk_test"
        (buildPrompt [samplePiatto] [sampleVino]) 2).1 = .ok "Barolo") :=
  ⟨(callGroqWithRetry_attempts (fun _ => .response 503 (.object none none)) "gsk_test"
      (buildPrompt [samplePiatto] [sampleVino]) 2).2.1
      (fun _ _ => ⟨_, callGroqAPI_503 _, by decide⟩),
   (callGroqWithRetry_attempts
      (fun n => if n < 1 then .response 503 (.object none none)
        else .response 200 (.object none (some (some "Barolo")))) "gsk_test"
      (buildPrompt [samplePiatto] [sampleVino]) 2).2.2.1 1 "Barolo" (by decide)
      (fun j hj => by
        have hj0 : j = 0 := by omega
        subst hj0
        exact ⟨_, callGroqAPI_503 _, by decide⟩)
      rfl⟩

theorem length_retrySchedule (apiKey : String) (prompt : Prompt) (n : Nat) :
    (retrySchedule apiKey prompt n).length = 2 * n + 1 := by
  induction n with
  | zero => simp [retrySchedule]
  | succ n ih =>
    rw [retrySchedule, List.length_append, ih]
    simp
    omega

theorem retrySchedule_getElem (apiKey : String) (prompt : Prompt) (n : Nat) :
    ∀ k, k ≤ n →
      (retrySchedule apiKey prompt n)[2 * k]? = some (.apiCall apiKey prompt) ∧
      (1 ≤ k → (retrySchedule apiKey prompt n)[2 * k - 1]? = some (.wait (2 ^ k * 1000))) := by
  induction n with
  | zero =>
    intro k hk
    have : k = 0 := by omega
    subst this
    simp [retrySchedule]
  | succ n ih =>
    intro k hk
    have hlen := length_retrySchedule apiKey prompt n
    by_cases hkn : k ≤ n
    · obtain ⟨h1, h2⟩ := ih k hkn
      constructor
      · rw [retrySchedule, List.getElem?_append_left (by omega)]
        exact h1
      · intro hk1
        rw [retrySchedule, List.getElem?_append_left (by omega)]
        exact h2 hk1
    · have hk2 : k = n + 1 := by omega
      subst hk2
      constructor
      · rw [retrySchedule, List.getElem?_append_right (by omega)]
        have : 2 * (n + 1) - (retrySchedule apiKey prompt n).length = 1 := by omega
        rw [this]
        rfl
      · intro _
        rw [retrySchedule, List.getElem?_append_right (by omega)]
        have : 2 * (n + 1) - 1 - (retrySchedule apiKey prompt n).length = 0 := by omega
        rw [this]
        rfl

/-- C8: the trace of `callGroqWithRetry` is the schedule of some number
`n ≤ maxRetries` of retries.  Its first event is the first upstream call, so
no wait precedes the first attempt; for every retry `k` with `1 ≤ k ≤ n` the
event just before the call of attempt `k` is a wait of `2 ^ k * 1000` ms
(2000, 4000, 8000, ...); and the successive waits are strictly increasing. -/
theorem callGroqWithRetry_backoff (upstream : Nat → FetchResult) (apiKey : String)
    (prompt : Prompt) (maxRetries : Nat) :
    ∃ n, n ≤ maxRetries ∧
      (callGroqWithRetry upstream apiKey prompt maxRetries).2 = retrySchedule apiKey prompt n ∧
      (callGroqWithRetry upstream apiKey prompt maxRetries).2[0]? =
        some (.apiCall apiKey prompt) ∧
      (∀ k, 1 ≤ k → k ≤ n →
        (callGroqWithRetry upstream apiKey prompt maxRetries).2[2 * k - 1]? =
            some (.wait (2 ^ k * 1000)) ∧
          (callGroqWithRetry upstream apiKey prompt maxRetries).2[2 * k]? =
            some (.apiCall apiKey prompt)) ∧
      waits (callGroqWithRetry upstream apiKey prompt maxRetries).2 =
        (List.range n).map (fun i => 2 ^ (i + 1) * 1000) ∧
      (waits (callGroqWithRetry upstream apiKey prompt maxRetries).2).Pairwise (· < ·) := by
  obtain ⟨n, h1, _, _, _, h5⟩ := callGroqWithRetry_spec upstream apiKey prompt maxRetries
  refine ⟨n, h1, h5, ?_, ?_, ?_, ?_⟩
  · rw [h5]
    exact (retrySchedule_getElem apiKey prompt n 0 (Nat.zero_le _)).1
  · intro k hk1 hkn
    rw [h5]
    exact ⟨(retrySchedule_getElem apiKey prompt n k hkn).2 hk1,
      (retrySchedule_getElem apiKey prompt n k hkn).1⟩
  · rw [h5, waits_retrySchedule]
  · rw [h5, waits_retrySchedule]
    refine List.Pairwise.map _ ?_ (List.pairwise_lt_range n)
    intro a b hab
    have : 2 ^ (a + 1) < 2 ^ (b + 1) := Nat.pow_lt_pow_right (by omega) (by omega)
    omega

theorem callGroqWithRetry_backoff_witness :
    ∃ n, n ≤ 3 ∧
      (callGroqWithRetry (fun _ => .response 503 (.object none none)) "gsk_test"
        (buildPrompt [samplePiatto] [sampleVino]) 3).2 =
          retrySchedule "gsk_test" (buildPrompt [samplePiatto] [sampleVino]) n ∧
      (callGroqWithRetry (fun _ => .response 503 (.object none none)) "gsk_test"
        (buildPrompt [samplePiatto] [sampleVino]) 3).2[0]? =
        some (.apiCall "gsk_test" (buildPrompt [samplePiatto] [sampleVino])) ∧
      (∀ k, 1 ≤ k → k ≤ n →
        (callGroqWithRetry (fun _ => .response 503 (.object none none)) "gsk_test"
          (buildPrompt [samplePiatto] [sampleVino]) 3).2[2 * k - 1]? =
            some (.wait (2 ^ k * 1000)) ∧
          (callGroqWithRetry (fun _ => .response 503 (.object none none)) "gsk_test"
            (buildPrompt [samplePiatto] [sampleVino]) 3).2[2 * k]? =
            some (.apiCall "gsk_test" (buildPrompt [samplePiatto] [sampleVino]))) ∧
      waits (callGroqWithRetry (fun _ => .response 503 (.object none none)) "gsk_test"
        (buildPrompt [samplePiatto] [sampleVino]) 3).2 =
        (List.range n).map (fun i => 2 ^ (i + 1) * 1000) ∧
      (waits (callGroqWithRetry (fun _ => .response 503 (.object none none)) "gsk_test"
        (buildPrompt [samplePiatto] [sampleVino]) 3).2).Pairwise (· < ·) :=
  callGroqWithRetry_backoff (fun _ => .response 503 (.object none none)) "gsk_test"
    (buildPrompt [samplePiatto] [sampleVino]) 3

/-- The schedule on a run whose three retries all follow a failure: waits of
2000, 4000 and 8000 ms. -/
theorem backoff_three_retries_example :
    waits (callGroqWithRetry (fun _ => .response 503 (.object none none)) "gsk_test"
      (buildPrompt [samplePiatto] [sampleVino]) 3).2 = [2000, 4000, 8000] := by
  decide

/-! ## Catalog availability -/

/-- C9, counterexample: with a catalog whose dish list is empty, or missing,
and whose wine list is not empty, the handler does not answer 500: it calls
the upstream API once and answers 200. -/
theorem handler_ignores_catalog_dishes :
    ((handler
        (sampleEnv (some []) (some [sampleVino])
          (fun _ => .response 200 (.object none (some (some "Barolo")))) none)
        (postRequest [samplePiatto])).response.map Response.status = some 200 ∧
      apiCalls (handler
        (sampleEnv (some []) (some [sampleVino])
          (fun _ => .response 200 (.object none (some (some "Barolo")))) none)
        (postRequest [samplePiatto])).events = 1) ∧
    ((handler
        (sampleEnv none (some [sampleVino])
          (fun _ => .response 200 (.object none (some (some "Barolo")))) none)
        (postRequest [samplePiatto])).response.map Response.status = some 200 ∧
      apiCalls (handler
        (sampleEnv none (some [sampleVino])
          (fun _ => .response 200 (.object none (some (some "Barolo")))) none)
        (postRequest [samplePiatto])).events = 1) := by
  decide

/-- C9, amended: on a POST request with 1 to 5 dishes and a credential
present, if the loaded catalog is falsy or has a missing or empty wine list,
the handler responds with status 500 and the message that the wine database
is unavailable, and never calls the upstream API.  The dish list of the
catalog plays no part. -/
theorem handler_wines_unavailable (env : Env) (apiKey : String) (piatti : List Piatto)
    (database : Option Database)
    (hk : env.apiKey = some apiKey) (hne : apiKey ≠ "")
    (h1 : 1 ≤ piatti.length) (h5 : piatti.length ≤ 5)
    (hload : (loadDatabase env).1 = .ok database) (hw : winesUnavailable database) :
    (handler env (postRequest piatti)).response =
        some (errorResponse 500 "Database dei vini non disponibile.") ∧
      apiCalls (handler env (postRequest piatti)).events = 0 := by
  have h0 : piatti.length ≠ 0 := by omega
  have h5 : ¬ 5 < piatti.length := by omega
  have hld : loadDatabase env = (.ok database, (loadDatabase env).2) := by
    rw [← hload]
  have hev := (loadDatabase_apiCalls env).1
  simp only [handler, postRequest, handlerTry, hk, hne]
  rw [hld]
  cases database with
  | none => simp [h0, h5, hev]
  | some d =>
    rcases hw with hw | hw <;> simp [h0, h5, hw, hev]

theorem handler_wines_unavailable_witness :
    (handler (sampleEnv (some [samplePiatto]) (some [])
          (fun _ => .response 200 (.object none (some (some "Barolo")))) none)
        (postRequest [samplePiatto])).response =
        some (errorResponse 500 "Database dei vini non disponibile.") ∧
      apiCalls (handler (sampleEnv (some [samplePiatto]) (some [])
          (fun _ => .response 200 (.object none (some (some "Barolo")))) none)
        (postRequest [samplePiatto])).events = 0 :=
  handler_wines_unavailable _ "gsk_test" [samplePiatto]
    (some { piatti := some [samplePiatto], vini := some [] })
    rfl (by decide) (by decide) (by decide) rfl (Or.inr rfl)

/-! ## Error details -/

/-- C10, counterexample: with `NODE_ENV` set to `test`, and with `NODE_ENV`
unset, neither of which is production, a failure that reaches the error
mapping (here an upstream 401) is answered without `details`. -/
theorem handler_no_details_outside_development :
    (handler
        (sampleEnv none (some [sampleVino]) (fun _ => .response 401 (.object none none))
          (some "test"))
        (postRequest [samplePiatto])).response =
      some { status := 401
             body := .error "Errore di autenticazione con il servizio AI." none
             headers := corsHeaders } ∧
    (handler
        (sampleEnv none (some [sampleVino]) (fun _ => .response 401 (.object none none)) none)
        (postRequest [samplePiatto])).response =
      some { status := 401
             body := .error "Errore di autenticazione con il servizio AI." none
             headers := corsHeaders } := by
  decide

/-- C10, amended: for every failure that reaches the error mapping of
`handler`, the response body carries the raw error message as `details`
exactly when `NODE_ENV` is `development`, and omits it for every other value,
production and unset included. -/
theorem handler_details_iff_development (env : Env) (body : Body) (error : JsError)
    (events : List Event)
    (hthrow : handlerTry env ⟨"POST", body⟩ = (.error (some error), events)) :
    ∃ status message details,
      (handler env ⟨"POST", body⟩).response =
        some { status := status, body := .error message details, headers := corsHeaders } ∧
      (env.nodeEnv = some "development" → details = some error.message) ∧
      (env.nodeEnv ≠ some "development" → details = none) := by
  refine ⟨(classifyError error.message).1, (classifyError error.message).2,
    if env.nodeEnv = some "development" then some error.message else none, ?_, ?_, ?_⟩
  · simp [handler, hthrow, handlerCatch]
  · intro h
    simp [h]
  · intro h
    simp [h]

theorem handler_details_iff_development_witness :
    ∃ status message details,
      (handler (sampleEnv none (some [sampleVino]) (fun _ => .response 200 (.object none none))
          (some "development")) ⟨"POST", .undefined⟩).response =
        some { status := status, body := .error message details, headers := corsHeaders } ∧
      ((sampleEnv none (some [sampleVino]) (fun _ => .response 200 (.object none none))
          (some "development")).nodeEnv = some "development" →
        details = some (destructureError "undefined").message) ∧
      ((sampleEnv none (some [sampleVino]) (fun _ => .response 200 (.object none none))
          (some "development")).nodeEnv ≠ some "development" → details = none) :=
  handler_details_iff_development _ .undefined (destructureError "undefined") [] rfl

/-! ## The prompt -/

theorem intercalate_go_eq (sep : String) (l : List String) :
    ∀ acc, String.intercalate.go acc sep l = acc ++ String.intercalate.go "" sep l := by
  induction l with
  | nil => intro acc; simp [String.intercalate.go]
  | cons a as ih =>
    intro acc
    simp only [String.intercalate.go]
    rw [ih (acc ++ sep ++ a), ih ("" ++ sep ++ a)]
    simp [String.append_assoc]

theorem intercalate_cons_cons (sep a b : String) (l : List String) :
    sep.intercalate (a :: b :: l) = a ++ sep ++ sep.intercalate (b :: l) := by
  simp only [String.intercalate, String.intercalate.go]
  rw [intercalate_go_eq sep l (a ++ sep ++ b), intercalate_go_eq sep l b]
  simp [String.append_assoc]

theorem intercalate_eq_joinWith (sep : String) (l : List String) :
    sep.intercalate l = joinWith sep l := by
  induction l with
  | nil => rfl
  | cons a as ih =>
    cases as with
    | nil => simp [String.intercalate, String.intercalate.go, joinWith]
    | cons b rest => rw [intercalate_cons_cons, ih, joinWith]

theorem includesChars_infix (needle pre post : List Char) :
    includesChars needle (pre ++ (needle ++ post)) = true := by
  induction pre with
  | nil =>
    cases h : needle ++ post with
    | nil =>
      have hn : needle = [] := (List.append_eq_nil.mp h).1
      simp [includesChars, hn]
    | cons c cs =>
      have hp : needle.isPrefixOf (c :: cs) = true := by
        rw [← h]
        exact List.isPrefixOf_iff_prefix.mpr (List.prefix_append _ _)
      simp [includesChars, hp]
  | cons c pre ih =>
    have ih2 : includesChars needle (pre ++ (needle ++ post)) = true := ih
    simp [includesChars, ih2]

theorem includes_infix (pre needle post : String) :
    includes (pre ++ needle ++ post) needle = true := by
  unfold includes
  simp only [String.data_append, List.append_assoc]
  exact includesChars_infix _ _ _

theorem joinWith_mem (sep : String) (l : List String) (e : String) (h : e ∈ l) :
    ∃ pre post, joinWith sep l = pre ++ e ++ post := by
  induction l with
  | nil => cases h
  | cons a as ih =>
    cases as with
    | nil =>
      have ha : e = a := by simpa using h
      subst ha
      exact ⟨"", "", by simp [joinWith]⟩
    | cons b rest =>
      rcases List.mem_cons.mp h with ha | hrest
      · subst ha
        exact ⟨"", sep ++ joinWith sep (b :: rest), by simp [joinWith, String.append_assoc]⟩
      · obtain ⟨pre, post, hj⟩ := ih hrest
        exact ⟨a ++ sep ++ pre, post, by
          rw [joinWith, hj]
          simp [String.append_assoc]⟩

/-- C11: for every list of dishes and every list of wines, `buildPrompt`
returns the fixed system message written out below, and a user message made
of the fixed greeting, one line per dish, the fixed cellar heading, one line
per wine, and the fixed closing request, the lines joined by line feeds.  The
lines are the input lists mapped, element by element and in input order,
through the two templates written out below, so there are as many lines as
dishes and as wines and none is filtered out or moved; every one of these
lines occurs in the user message.  Equal inputs give equal outputs. -/
theorem buildPrompt_shape (piatti : List Piatto) (vini : List Vino) :
    ∃ dishLines wineLines : List String,
      dishLines = piatti.map (fun p =>
        "- **" ++ p.nome ++ "** (" ++ p.categoria ++ ", intensità: " ++ p.intensita ++ "): " ++
        p.descrizione ++ ". Note aromatiche: " ++ joinWith ", " p.note_aromatiche ++ ".") ∧
      wineLines = vini.map (fun v =>
        "- **" ++ v.nome ++ "** (" ++ v.tipo ++ ", " ++ v.regione ++ "): " ++ v.vitigno ++
        ". Note: " ++ joinWith ", " v.note_aromatiche ++ ". Corpo: " ++ v.corpo ++ ". " ++
        v.prezzo ++ ". Ideale per: " ++ joinWith ", " v.abbinamenti_ideali ++ ".") ∧
      (buildPrompt piatti vini).userMessage =
        "Buonasera René! Ho selezionato questi piatti per la mia cena:\n\n" ++
        joinWith "\n" dishLines ++
        "\n\nEcco i vini disponibili nella vostra cantina:\n\n" ++
        joinWith "\n" wineLines ++
        "\n\nPer favore, consigliatemi i migliori abbinamenti scegliendo SOLO tra i vini elencati sopra. Grazie!" ∧
      dishLines.length = piatti.length ∧
      wineLines.length = vini.length ∧
      (∀ line, line ∈ dishLines → includes (buildPrompt piatti vini).userMessage line = true) ∧
      (∀ line, line ∈ wineLines → includes (buildPrompt piatti vini).userMessage line = true) ∧
      (buildPrompt piatti vini).systemMessage =
        "Struttura della risposta obbligatoria per ogni vino:\n" ++
        "1. IL CONSIGLIO: Inizia con \"Per il [Nome Piatto], vi suggerisco il **[Nome Vino]**.\"\n" ++
        "2. I PREZZI: Subito dopo scrivi (Bottiglia: €XX | Calice: €X).\n" ++
        "3. L'ABBINAMENTO: Spiega in 2 frasi perché si sposa bene con il piatto.\n" ++
        "4. LA CANTINA: Aggiungi un paragrafo separato che inizia con \"Curiosità:\" dove racconti qualcosa sulla produzione, sul vitigno o sulla storia della cantina.\n" ++
        "\n" ++
        "IMPORTANTE: \n" ++
        "- NON usare tag HTML come <span> o classi come text-amber-400.\n" ++
        "- Usa solo il grassetto Markdown **testo** per i nomi.\n" ++
        "- Sii elegante, appassionato ma strutturato." ∧
      (∀ piatti2 vini2, piatti2 = piatti → vini2 = vini →
        buildPrompt piatti2 vini2 = buildPrompt piatti vini) := by
  have hmsg : (buildPrompt piatti vini).userMessage =
      "Buonasera René! Ho selezionato questi piatti per la mia cena:\n\n" ++
      joinWith "\n" (piatti.map renderPiatto) ++
      "\n\nEcco i vini disponibili nella vostra cantina:\n\n" ++
      joinWith "\n" (vini.map renderVino) ++
      "\n\nPer favore, consigliatemi i migliori abbinamenti scegliendo SOLO tra i vini elencati sopra. Grazie!" := by
    simp only [buildPrompt, intercalate_eq_joinWith]
  have hd : renderPiatto = fun p =>
      "- **" ++ p.nome ++ "** (" ++ p.categoria ++ ", intensità: " ++ p.intensita ++ "): " ++
      p.descrizione ++ ". Note aromatiche: " ++ joinWith ", " p.note_aromatiche ++ "." := by
    funext p
    simp only [renderPiatto, intercalate_eq_joinWith]
  have hw : renderVino = fun v =>
      "- **" ++ v.nome ++ "** (" ++ v.tipo ++ ", " ++ v.regione ++ "): " ++ v.vitigno ++
      ". Note: " ++ joinWith ", " v.note_aromatiche ++ ". Corpo: " ++ v.corpo ++ ". " ++
      v.prezzo ++ ". Ideale per: " ++ joinWith ", " v.abbinamenti_ideali ++ "." := by
    funext v
    simp only [renderVino, intercalate_eq_joinWith]
  refine ⟨piatti.map renderPiatto, vini.map renderVino, by rw [hd], by rw [hw], hmsg,
    by simp, by simp, ?_, ?_, rfl, ?_⟩
  · intro line hline
    obtain ⟨pre, post, hj⟩ := joinWith_mem "\n" _ line hline
    rw [hmsg, hj]
    have := includes_infix
      ("Buonasera René! Ho selezionato questi piatti per la mia cena:\n\n" ++ pre) line
      (post ++ "\n\nEcco i vini disponibili nella vostra cantina:\n\n" ++
        joinWith "\n" (vini.map renderVino) ++
        "\n\nPer favore, consigliatemi i migliori abbinamenti scegliendo SOLO tra i vini elencati sopra. Grazie!")
    simpa [String.append_assoc] using this
  · intro line hline
    obtain ⟨pre, post, hj⟩ := joinWith_mem "\n" _ line hline
    rw [hmsg, hj]
    have := includes_infix
      ("Buonasera René! Ho selezionato questi piatti per la mia cena:\n\n" ++
        joinWith "\n" (piatti.map renderPiatto) ++
        "\n\nEcco i vini disponibili nella vostra cantina:\n\n" ++ pre) line
      (post ++
        "\n\nPer favore, consigliatemi i migliori abbinamenti scegliendo SOLO tra i vini elencati sopra. Grazie!")
    simpa [String.append_assoc] using this
  · intro piatti2 vini2 h1 h2
    rw [h1, h2]

set_option maxRecDepth 100000 in
theorem buildPrompt_shape_witness :
    (buildPrompt [samplePiatto] [sampleVino, sampleVino]).userMessage =
      "Buonasera René! Ho selezionato questi piatti per la mia cena:\n\n" ++
      "- **Risotto ai funghi** (Primi, intensità: media): Risotto mantecato con porcini. " ++
      "Note aromatiche: terroso, burroso.\n\n" ++
      "Ecco i vini disponibili nella vostra cantina:\n\n" ++
      "- **Barolo** (Rosso, Piemonte): Nebbiolo. Note: rosa, catrame. Corpo: pieno. " ++
      "Bottiglia: €60. Ideale per: brasato, tartufo.\n" ++
      "- **Barolo** (Rosso, Piemonte): Nebbiolo. Note: rosa, catrame. Corpo: pieno. " ++
      "Bottiglia: €60. Ideale per: brasato, tartufo.\n\n" ++
      "Per favore, consigliatemi i migliori abbinamenti scegliendo SOLO tra i vini elencati sopra. Grazie!" := by
  obtain ⟨dishLines, wineLines, hd, hw, hmsg, _⟩ :=
    buildPrompt_shape [samplePiatto] [sampleVino, sampleVino]
  rw [hmsg, hd, hw]
  rfl

/-! ## Errors that are not retried -/

theorem callGroqWithRetry_nonRetryable_first (upstream : Nat → FetchResult) (apiKey : String)
    (prompt : Prompt) (maxRetries : Nat) (error : JsError)
    (h : callGroqAPI (upstream 0) = .error error)
    (hn : isNonRetryable error.message = true) :
    callGroqWithRetry upstream apiKey prompt maxRetries =
      (.error (some error), [.apiCall apiKey prompt]) := by
  simp [callGroqWithRetry, retryLoop, h, hn]

theorem callGroqAPI_generic (status : Nat) (json : ResponseJson)
    (h4 : 400 ≤ status) (h401 : status ≠ 401) (h429 : status ≠ 429) (h503 : status ≠ 503)
    (h : hasNoErrorMessage json) :
    callGroqAPI (.response status json) =
      .error (newError ("Errore API: " ++ toString status)) := by
  have hok : ¬ (200 ≤ status ∧ status ≤ 299) := by omega
  cases json with
  | unparsable e => simp [callGroqAPI, callGroqAPITry, hok, h401, h429, h503, newError]
  | null => exact absurd h (by simp [hasNoErrorMessage])
  | object m c =>
    cases m with
    | none => simp [callGroqAPI, callGroqAPITry, hok, h401, h429, h503, newError]
    | some m =>
      have hm : m = "" := h
      subst hm
      simp [callGroqAPI, callGroqAPITry, hok, h401, h429, h503, newError]

theorem isNonRetryable_generic (status : Nat) (h1 : 402 ≤ status) (h2 : status ≤ 499) :
    isNonRetryable ("Errore API: " ++ toString status) = false := by
  interval_cases status <;> decide

/-- A response with status 400 whose body is JSON `null`: reading
`errorData.error` raises a `TypeError`, whose message has none of the three
keywords, so the loop retries it. -/
theorem retry_400_null_body_example :
    callGroqAPI (.response 400 .null) =
        .error ⟨"TypeError", "Cannot read properties of null (reading 'error')"⟩ ∧
      apiCalls (callGroqWithRetry (fun _ => .response 400 .null) "gsk_test"
        (buildPrompt [samplePiatto] [sampleVino]) 2).2 = 3 :=
  ⟨rfl, by decide⟩

/-- C12, counterexample: an upstream that answers HTTP 403 to every attempt
(and one that answers HTTP 404) is not re-raised at once.  `callGroqAPI` raises
the generic `Errore API: 403`, not the authentication error, and with
`maxRetries = 2` the loop makes three invocations with waits of 2000 ms and
4000 ms before failing with the retries-exhausted error. -/
theorem callGroqWithRetry_retries_403 :
    (callGroqAPI (.response 403 (.object none none)) = .error (newError "Errore API: 403") ∧
      (callGroqWithRetry (fun _ => .response 403 (.object none none)) "gsk_test"
        (buildPrompt [samplePiatto] [sampleVino]) 2).1 =
          .error (some (newError "Falliti tutti i tentativi: Errore API: 403")) ∧
      apiCalls (callGroqWithRetry (fun _ => .response 403 (.object none none)) "gsk_test"
        (buildPrompt [samplePiatto] [sampleVino]) 2).2 = 3 ∧
      waits (callGroqWithRetry (fun _ => .response 403 (.object none none)) "gsk_test"
        (buildPrompt [samplePiatto] [sampleVino]) 2).2 = [2000, 4000]) ∧
    (apiCalls (callGroqWithRetry (fun _ => .response 404 (.object none none)) "gsk_test"
        (buildPrompt [samplePiatto] [sampleVino]) 2).2 = 3 ∧
      waits (callGroqWithRetry (fun _ => .response 404 (.object none none)) "gsk_test"
        (buildPrompt [samplePiatto] [sampleVino]) 2).2 = [2000, 4000]) :=
  ⟨⟨rfl, rfl, by decide, by decide⟩, by decide, by decide⟩

/-- C12, amended: for every upstream response to the first attempt whose
status is 401, whatever its body, `callGroqWithRetry` re-raises the error
immediately, after exactly one invocation of `callGroqAPI` and no backoff
wait; the same holds for a response with status 400 whose body carries no
error message of its own.  Any other 4xx status apart from 429, 403 among
them, is not classified as an authentication error: when every attempt is
answered with it and with a body that carries no error message of its own,
`callGroqAPI` raises the generic `Errore API: ` followed by the status, and
the loop retries it until the `maxRetries + 1` attempts are exhausted. -/
theorem callGroqWithRetry_reraises_at_once (upstream : Nat → FetchResult) (apiKey : String)
    (prompt : Prompt) (maxRetries : Nat) :
    (∀ json, upstream 0 = .response 401 json →
      reraisedAtOnce upstream apiKey prompt maxRetries
        (newError "API key non valida o scaduta")) ∧
    (∀ json, upstream 0 = .response 400 json → hasNoErrorMessage json →
      reraisedAtOnce upstream apiKey prompt maxRetries (newError "Errore API: 400")) ∧
    (∀ status, 400 ≤ status → status ≤ 499 →
      status ≠ 400 → status ≠ 401 → status ≠ 429 →
      (∀ k, k ≤ maxRetries →
        ∃ json, upstream k = .response status json ∧ hasNoErrorMessage json) →
      (callGroqWithRetry upstream apiKey prompt maxRetries).1 =
          .error (some (newError
            ("Falliti tutti i tentativi: " ++ ("Errore API: " ++ toString status)))) ∧
        apiCalls (callGroqWithRetry upstream apiKey prompt maxRetries).2 = maxRetries + 1 ∧
        waits (callGroqWithRetry upstream apiKey prompt maxRetries).2 =
          (List.range maxRetries).map (fun i => 2 ^ (i + 1) * 1000)) := by
  have key : ∀ error, callGroqAPI (upstream 0) = .error error →
      isNonRetryable error.message = true →
      reraisedAtOnce upstream apiKey prompt maxRetries error := by
    intro error h hn
    unfold reraisedAtOnce
    rw [callGroqWithRetry_nonRetryable_first upstream apiKey prompt maxRetries error h hn]
    simp [apiCalls, waits]
  refine ⟨?_, ?_, ?_⟩
  · intro json h
    exact key _ (by rw [h, callGroqAPI_401]) (by decide)
  · intro json h hj
    exact key _
      (by rw [h, callGroqAPI_generic 400 json (by omega) (by omega) (by omega) (by omega) hj]
          rfl)
      (by decide)
  · intro status h4 h5 h400 h401 h429 hall
    have hfail : ∀ k, k ≤ maxRetries → callGroqAPI (upstream k) =
        .error (newError ("Errore API: " ++ toString status)) := by
      intro k hk
      obtain ⟨json, hj, hm⟩ := hall k hk
      rw [hj]
      exact callGroqAPI_generic status json h4 h401 h429 (by omega) hm
    have hretry : isNonRetryable ("Errore API: " ++ toString status) = false :=
      isNonRetryable_generic status (by omega) h5
    obtain ⟨n, h1, _, h3, h4, h5⟩ := callGroqWithRetry_spec upstream apiKey prompt maxRetries
    have hn : n = maxRetries :=
      failsRetryably_not_stop upstream maxRetries n ⟨_, hfail n h1, hretry⟩ h3
    subst hn
    rw [h4, h5, apiCalls_retrySchedule, waits_retrySchedule, hfail n (le_refl _)]
    refine ⟨?_, rfl, rfl⟩
    simp [finalOutcome, newError, hretry]

theorem callGroqWithRetry_reraises_at_once_witness :
    reraisedAtOnce (fun _ => .response 401 .null) "gsk_test"
        (buildPrompt [samplePiatto] [sampleVino]) 2 (newError "API key non valida o scaduta") ∧
      reraisedAtOnce (fun _ => .response 400 (.object none none)) "gsk_test"
        (buildPrompt [samplePiatto] [sampleVino]) 2 (newError "Errore API: 400") ∧
      ((callGroqWithRetry (fun _ => .response 403 (.object none none)) "gsk_test"
          (buildPrompt [samplePiatto] [sampleVino]) 2).1 =
          .error (some (newError
            ("Falliti tutti i tentativi: " ++ ("Errore API: " ++ toString 403)))) ∧
        apiCalls (callGroqWithRetry (fun _ => .response 403 (.object none none)) "gsk_test"
          (buildPrompt [samplePiatto] [sampleVino]) 2).2 = 2 + 1 ∧
        waits (callGroqWithRetry (fun _ => .response 403 (.object none none)) "gsk_test"
          (buildPrompt [samplePiatto] [sampleVino]) 2).2 =
          (List.range 2).map (fun i => 2 ^ (i + 1) * 1000)) :=
  ⟨(callGroqWithRetry_reraises_at_once (fun _ => .response 401 .null) "gsk_test"
      (buildPrompt [samplePiatto] [sampleVino]) 2).1 _ rfl,
   (callGroqWithRetry_reraises_at_once (fun _ => .response 400 (.object none none)) "gsk_test"
      (buildPrompt [samplePiatto] [sampleVino]) 2).2.1 _ rfl trivial,
   (callGroqWithRetry_reraises_at_once (fun _ => .response 403 (.object none none)) "gsk_test"
      (buildPrompt [samplePiatto] [sampleVino]) 2).2.2 403 (by decide) (by decide) (by decide)
      (by decide) (by decide) (fun _ _ => ⟨_, rfl, trivial⟩)⟩

/-! ## The error raised when the retries are exhausted -/

/-- C13: when all `maxRetries + 1` attempts fail with errors the loop
retries, `callGroqWithRetry` fails with a new error whose message is
`Falliti tutti i tentativi: ` followed by the message of the error of the last
attempt, the one with index `maxRetries`.  When instead an attempt that is
reached fails with an error the loop does not retry, that error is re-raised
unchanged, without the prefix. -/
theorem callGroqWithRetry_exhausted (upstream : Nat → FetchResult) (apiKey : String)
    (prompt : Prompt) (maxRetries : Nat) :
    ((∀ k, k ≤ maxRetries → failsRetryably upstream k) →
      ∃ last, callGroqAPI (upstream maxRetries) = .error last ∧
        (callGroqWithRetry upstream apiKey prompt maxRetries).1 =
          .error (some (newError ("Falliti tutti i tentativi: " ++ last.message)))) ∧
    (∀ k error, k ≤ maxRetries → (∀ j, j < k → failsRetryably upstream j) →
      callGroqAPI (upstream k) = .error error → isNonRetryable error.message = true →
      (callGroqWithRetry upstream apiKey prompt maxRetries).1 = .error (some error)) := by
  obtain ⟨n, h1, h2, h3, h4, _⟩ := callGroqWithRetry_spec upstream apiKey prompt maxRetries
  rw [h4]
  constructor
  · intro hall
    have hn := failsRetryably_not_stop upstream maxRetries n (hall n h1) h3
    subst hn
    obtain ⟨last, hlast, hretry⟩ := hall n (le_refl _)
    exact ⟨last, hlast, by simp [hlast, finalOutcome, hretry]⟩
  · intro k error hk hbefore hfail hnon
    have hnk : n = k := by
      rcases Nat.lt_trichotomy n k with h | h | h
      · have := failsRetryably_not_stop upstream maxRetries n (hbefore n h) h3
        omega
      · exact h
      · obtain ⟨e, he, hr⟩ := h2 k h
        rw [he] at hfail
        cases hfail
        rw [hr] at hnon
        cases hnon
    subst hnk
    simp [hfail, finalOutcome, hnon]

theorem callGroqWithRetry_exhausted_witness :
    (callGroqWithRetry
        (scriptedUpstream [.response 503 (.object none none), .response 429 (.object none none)])
        "gsk_test" (buildPrompt [samplePiatto] [sampleVino]) 2).1 =
      .error (some (newError
        "Falliti tutti i tentativi: Timeout: richiesta interrotta dopo 25 secondi")) ∧
    (callGroqWithRetry
        (scriptedUpstream [.response 503 (.object none none), .response 401 (.object none none)])
        "gsk_test" (buildPrompt [samplePiatto] [sampleVino]) 2).1 =
      .error (some (newError "API key non valida o scaduta")) := by
  constructor
  · obtain ⟨last, h1, h2⟩ :=
      (callGroqWithRetry_exhausted
        (scriptedUpstream [.response 503 (.object none none), .response 429 (.object none none)])
        "gsk_test" (buildPrompt [samplePiatto] [sampleVino]) 2).1
        (fun k hk => by
          interval_cases k
          · exact ⟨_, rfl, by decide⟩
          · exact ⟨_, rfl, by decide⟩
          · exact ⟨_, rfl, by decide⟩)
    have h3 : Except.error (newError "Timeout: richiesta interrotta dopo 25 secondi") =
        (Except.error last : Except JsError String) := h1
    cases h3
    exact h2
  · exact (callGroqWithRetry_exhausted
        (scriptedUpstream [.response 503 (.object none none), .response 401 (.object none none)])
        "gsk_test" (buildPrompt [samplePiatto] [sampleVino]) 2).2 1
        (newError "API key non valida o scaduta") (by decide)
        (fun j hj => by
          have hj0 : j = 0 := by omega
          subst hj0
          exact ⟨_, rfl, by decide⟩)
        rfl (by decide)

end Sommelier
